import Mathlib

/-!
Verification of the provider-availability scheduling engine of the
health-first server (Node.js/Express/Mongoose).  The JavaScript source is
shallowly embedded: wall-clock times are minutes since midnight (`Nat`,
the code manipulates `HH:mm` strings through `timeToMinutes` /
`minutesToTime`), calendar dates are day numbers relative to 1970-01-01
(a JS `Date` at UTC midnight of that day), and instants are minutes since
the epoch (`Int`).  Mongoose documents become a `List Availability`
store passed explicitly; `save`, `findByIdAndUpdate`, `insertMany`
become pure store transformations.  Fallible code returns `Except`.
-/

namespace HealthFirst

/-! ## Time conversion utility (utils/timezoneUtils.js) -/

/-- `timeToMinutes` from utils/timezoneUtils.js: splits `HH:mm` on `:` and
returns `hours * 60 + minutes`.  `Number(...)` on a well-formed component
is modelled by `String.toNat?` with default 0. -/
def timeToMinutes (timeStr : String) : Nat :=
  match timeStr.splitOn ":" with
  | [h, m] => (h.toNat?.getD 0) * 60 + (m.toNat?.getD 0)
  | _ => 0

/-- `minutesToTime` from utils/timezoneUtils.js: zero-padded `HH:mm`. -/
def minutesToTime (minutes : Nat) : String :=
  let hours := minutes / 60
  let mins := minutes % 60
  (toString hours).leftpad 2 '0' ++ ":" ++ (toString mins).leftpad 2 '0'

/-- `isValidTimezone` from utils/timezoneUtils.js: membership in the fixed
supported-timezone whitelist. -/
def isValidTimezone (timezone : String) : Bool :=
  [ "UTC", "America/New_York", "America/Chicago", "America/Denver",
    "America/Los_Angeles", "Europe/London", "Europe/Paris", "Asia/Tokyo",
    "Asia/Shanghai", "Asia/Kolkata", "Australia/Sydney"
  ].contains timezone

/-- `getSimpleTimezoneOffset` from utils/timezoneUtils.js: the static
per-zone offset table (minutes east of UTC), defaulting to 0 for an
unknown zone (`timezoneOffsets[timezone] || 0`). -/
def getSimpleTimezoneOffset (timezone : String) : Int :=
  if timezone = "America/New_York" then -300
  else if timezone = "America/Chicago" then -360
  else if timezone = "America/Denver" then -420
  else if timezone = "America/Los_Angeles" then -480
  else if timezone = "Europe/London" then 0
  else if timezone = "Europe/Paris" then 60
  else if timezone = "Asia/Tokyo" then 540
  else if timezone = "Asia/Shanghai" then 480
  else if timezone = "Asia/Kolkata" then 330
  else if timezone = "Australia/Sydney" then 600
  else if timezone = "UTC" then 0
  else 0

/-- `new Date(naiveString)` on a string without a zone designator: the JS
engine interprets the naive wall-clock value in the HOST process's local
timezone.  `hostOffset` is that ambient offset in minutes east of UTC
(an environment parameter of the Node process, not an argument of the
source functions); the resulting instant is `naive - hostOffset`. -/
def jsParseLocal (hostOffset : Int) (naive : Int) : Int :=
  naive - hostOffset

/-- `date.toLocaleString('en-US', { timeZone: tz })` renders the instant as
a naive wall-clock value in zone `tz`.  The per-zone offset is modelled by
the source's own static table `getSimpleTimezoneOffset` (the dynamic
IANA/DST resolution the `try` branch performs is host-database dependent;
the spec's design notes direct the static fallback to be the model and
flag its DST inaccuracy). -/
def jsToLocaleStringTZ (timezone : String) (instant : Int) : Int :=
  instant + getSimpleTimezoneOffset timezone

/-- `getTimezoneOffset` from utils/timezoneUtils.js: renders `date` in the
target zone, re-parses the rendered string as host-local time, and returns
the difference in minutes. -/
def getTimezoneOffset (hostOffset : Int) (timezone : String) (date : Int) : Int :=
  let timeString := jsToLocaleStringTZ timezone date
  let targetDate := jsParseLocal hostOffset timeString
  targetDate - date

/-- `localToUTC` from utils/timezoneUtils.js: parses `${localDate}T${localTime}:00`
as host-local time, then subtracts the resolved zone offset.
`tMin` is the local time in minutes since midnight, `dDay` the local date
as a day number. -/
def localToUTC (hostOffset : Int) (tMin : Int) (dDay : Int) (timezone : String) : Int :=
  let localDateTime := jsParseLocal hostOffset (dDay * 1440 + tMin)
  let timezoneOffset := getTimezoneOffset hostOffset timezone localDateTime
  localDateTime - timezoneOffset

/-- `utcToLocal` from utils/timezoneUtils.js: adds the resolved zone offset,
then extracts the DATE via `toISOString` (which renders the shifted value
as a UTC instant) and the TIME via `toTimeString` (which renders it in the
HOST zone): the two components are rendered against different zones in
the source.  Returns (day number, minutes since midnight). -/
def utcToLocal (hostOffset : Int) (utcDateTime : Int) (timezone : String) : Int × Int :=
  let timezoneOffset := getTimezoneOffset hostOffset timezone utcDateTime
  let localDateTime := utcDateTime + timezoneOffset
  let localDate := localDateTime / 1440
  let localTime := (localDateTime + hostOffset) % 1440
  (localDate, localTime)

/-- The while-loop of `generateTimeSlots`, on minutes.  `fuel` bounds the
iteration count (the JS loop runs while `current + slotDuration <= end`,
advancing by `slotDuration + breakDuration`; any positive `slotDuration`
makes `endMinutes + 1 - start` iterations an upper bound). -/
def genSlotsGo (endMinutes slotDuration breakDuration : Nat) :
    Nat → Nat → List (Nat × Nat)
  | 0, _ => []
  | fuel + 1, currentTime =>
    if currentTime + slotDuration ≤ endMinutes then
      (currentTime, currentTime + slotDuration) ::
        genSlotsGo endMinutes slotDuration breakDuration fuel
          (currentTime + slotDuration + breakDuration)
    else []

/-- `generateTimeSlots` from utils/timezoneUtils.js, minute level: emits
`(start, start + slotDuration)` pairs while the slot still fits before
`endMinutes`, stepping by `slotDuration + breakDuration`. -/
def generateTimeSlotsM (startMinutes endMinutes slotDuration breakDuration : Nat) :
    List (Nat × Nat) :=
  genSlotsGo endMinutes slotDuration breakDuration (endMinutes + 1 - startMinutes) startMinutes

/-- `generateTimeSlots` from utils/timezoneUtils.js at the string level:
the source parses the `HH:mm` inputs with `timeToMinutes`, runs the loop
and formats each emitted bound with `minutesToTime`. -/
def generateTimeSlots (startTime endTime : String) (slotDuration breakDuration : Nat) :
    List (String × String) :=
  (generateTimeSlotsM (timeToMinutes startTime) (timeToMinutes endTime)
      slotDuration breakDuration).map
    (fun slot => (minutesToTime slot.1, minutesToTime slot.2))

end HealthFirst

namespace HealthFirst

/-! ## Error classes (utils/errors.js) -/

/-- The error classes DEFINED in utils/errors.js.  Note there is no
constructor for a conflict error: the file defines exactly these seven
classes. -/
inductive ErrClass
  | validation
  | duplicate
  | database
  | authentication
  | authorization
  | notFound
  | rateLimit
deriving DecidableEq, Repr

/-- `module.exports` of utils/errors.js, as the (name ↦ class) object it
is: exactly the seven defined classes, in source order. -/
def errorsModuleExports : List (String × ErrClass) :=
  [ ("ValidationError", .validation),
    ("DuplicateError", .duplicate),
    ("DatabaseError", .database),
    ("AuthenticationError", .authentication),
    ("AuthorizationError", .authorization),
    ("NotFoundError", .notFound),
    ("RateLimitError", .rateLimit) ]

/-- `const { X } = require('../utils/errors')`: property access on the
exports object; a name the module does not export yields `undefined`
(`none`). -/
def requireErrors (name : String) : Option ErrClass :=
  (errorsModuleExports.find? (fun e => e.1 == name)).map (fun e => e.2)

/-- Runtime error values.  `app c msg` is an instance of a defined error
class; `typeErrorNotCtor` models the `TypeError` JS throws for
`new X(...)` when `X` is `undefined`; `typeErrorInstanceofUndefined`
models the `TypeError` thrown by `e instanceof X` when `X` is
`undefined`; `plainError` is a bare `new Error(msg)` (the pre-save hook). -/
inductive JsErr
  | app (c : ErrClass) (msg : String)
  | typeErrorNotCtor (name : String)
  | typeErrorInstanceofUndefined (name : String)
  | plainError (msg : String)
deriving DecidableEq, Repr

/-- `error.message` of a runtime error value. -/
def JsErr.message : JsErr → String
  | .app _ msg => msg
  | .typeErrorNotCtor name => name ++ " is not a constructor"
  | .typeErrorInstanceofUndefined name =>
      "Right-hand side of instanceof is not an object: " ++ name
  | .plainError msg => msg

/-- `new C(msg)` where `C` is the value obtained by destructuring the
errors module: constructing through `undefined` throws a `TypeError`. -/
def throwNew (cls : Option ErrClass) (name msg : String) : JsErr :=
  match cls with
  | some c => .app c msg
  | none => .typeErrorNotCtor name

/-- `e instanceof C` where `C` came from the errors module: evaluating
`instanceof` against `undefined` itself throws a `TypeError`. -/
def jsInstanceof (e : JsErr) (cls : Option ErrClass) (name : String) :
    Except JsErr Bool :=
  match cls with
  | none => .error (.typeErrorInstanceofUndefined name)
  | some c =>
    match e with
    | .app c2 _ => .ok (c2 == c)
    | _ => .ok false

/-- The `catch` block shared by the scheduling service methods and the
repository `updateById`/`deleteById`:
`if (error instanceof NotFoundError || error instanceof ConflictError)
throw error; throw new DatabaseError(prefix + error.message)`.
Short-circuit `||`: the `ConflictError` operand is evaluated only when the
`NotFoundError` test is false. -/
def catchNotFoundConflict (msgPrefix : String) (e : JsErr) : JsErr :=
  match jsInstanceof e (requireErrors "NotFoundError") "NotFoundError" with
  | .error e2 => e2
  | .ok true => e
  | .ok false =>
    match jsInstanceof e (requireErrors "ConflictError") "ConflictError" with
    | .error e2 => e2
    | .ok true => e
    | .ok false =>
        throwNew (requireErrors "DatabaseError") "DatabaseError"
          (msgPrefix ++ e.message)

/-- The `catch` block of the repository `create`:
`if (error instanceof ConflictError) throw error;
throw new DatabaseError(prefix + error.message)`. -/
def catchConflict (msgPrefix : String) (e : JsErr) : JsErr :=
  match jsInstanceof e (requireErrors "ConflictError") "ConflictError" with
  | .error e2 => e2
  | .ok true => e
  | .ok false =>
      throwNew (requireErrors "DatabaseError") "DatabaseError"
        (msgPrefix ++ e.message)

/-! ## Availability record (models/ProviderAvailability.js) -/

/-- `status` enum of the availability schema. -/
inductive Status
  | available
  | booked
  | cancelled
  | blocked
  | maintenance
deriving DecidableEq, Repr

/-- `recurrence_pattern` enum of the availability schema. -/
inductive RecPattern
  | daily
  | weekly
  | monthly
deriving DecidableEq, Repr

/-- One ProviderAvailability document (models/ProviderAvailability.js).
`date` is a day number (the stored JS `Date` at UTC midnight of that
day), `start_time`/`end_time` are minutes since midnight (the stored
`HH:mm` strings through `timeToMinutes`), `utc_start_time`/`utc_end_time`
are minutes since the epoch.  Field defaults mirror the schema defaults.
Fields the scheduling logic never reads (`appointment_type`, `location`,
`pricing`, `special_requirements`, `notes`) are omitted. -/
structure Availability where
  id : Nat
  provider_id : Nat
  date : Int
  start_time : Nat
  end_time : Nat
  timezone : String
  utc_start_time : Int
  utc_end_time : Int
  is_recurring : Bool := false
  recurrence_pattern : RecPattern := .daily
  recurrence_end_date : Int := 0
  slot_duration : Nat := 30
  break_duration : Nat := 0
  status : Status := .available
  max_appointments_per_slot : Nat := 1
  current_appointments : Nat := 0
deriving DecidableEq, Repr

/-- `isAvailable()` instance method. -/
def Availability.isAvailable (r : Availability) : Bool :=
  r.status == .available &&
    r.current_appointments < r.max_appointments_per_slot

/-- `canBeBooked()` instance method: `isAvailable() && this.date >= new Date()`.
The stored date is the instant at UTC midnight of its day (`date * 1440`);
`now` is the current instant in minutes since the epoch. -/
def Availability.canBeBooked (now : Int) (r : Availability) : Bool :=
  r.isAvailable && now ≤ r.date * 1440

/-- `incrementAppointments()` instance method: guarded increment; when the
counter reaches `max_appointments_per_slot` the status is set to `booked`.
Returns the mutated document and the JS boolean result. -/
def Availability.incrementAppointments (r : Availability) : Availability × Bool :=
  if r.current_appointments < r.max_appointments_per_slot then
    let current := r.current_appointments + 1
    ({ r with
        current_appointments := current,
        status := if r.max_appointments_per_slot ≤ current then .booked else r.status },
     true)
  else (r, false)

/-- `decrementAppointments()` instance method: guarded decrement; when the
status was `booked` and the counter drops under capacity the status is set
back to `available`. -/
def Availability.decrementAppointments (r : Availability) : Availability × Bool :=
  if 0 < r.current_appointments then
    let current := r.current_appointments - 1
    ({ r with
        current_appointments := current,
        status :=
          if r.status == .booked && current < r.max_appointments_per_slot then
            .available
          else r.status },
     true)
  else (r, false)

/-- `document.save()`: runs the `pre('save')` middleware of
models/ProviderAvailability.js — reject `end_time <= start_time`, then
recompute `utc_start_time`/`utc_end_time` from the local fields via
`localToUTC` — then persists the document.  (Schema validators are the
storage collaborator's admission contract and are not re-modelled here.) -/
def Availability.save (hostOffset : Int) (r : Availability) : Except JsErr Availability :=
  if r.end_time ≤ r.start_time then
    .error (.plainError "End time must be after start time")
  else
    .ok { r with
          utc_start_time := localToUTC hostOffset (r.start_time : Int) r.date r.timezone,
          utc_end_time := localToUTC hostOffset (r.end_time : Int) r.date r.timezone }

end HealthFirst

namespace HealthFirst

/-! ## Conflict detector (repositories/providerAvailabilityRepository.js,
`checkForConflicts`) -/

/-- The `$or` of the three overlap shapes in the `checkForConflicts` Mongo
query, against one stored record with times `s`/`e` (the request range is
`[reqStart, reqEnd)`):
`{start_time ≤ reqStart, end_time > reqStart}` — new starts inside existing;
`{start_time < reqEnd, end_time ≥ reqEnd}` — new ends inside existing;
`{start_time ≥ reqStart, end_time ≤ reqEnd}` — new contains existing.
Stored `HH:mm` strings are zero-padded, so the Mongo lexicographic string
comparisons coincide with these minute comparisons. -/
def overlapQueryMatches (reqStart reqEnd s e : Nat) : Bool :=
  (s ≤ reqStart && reqStart < e) ||
  (s < reqEnd && reqEnd ≤ e) ||
  (reqStart ≤ s && e ≤ reqEnd)

/-- The full document filter of the `checkForConflicts` query: same
provider, same date, not the excluded id, and one of the three overlap
shapes. -/
def conflictQueryFilter (providerId : Nat) (date : Int) (startTime endTime : Nat)
    (excludeId : Option Nat) (r : Availability) : Bool :=
  r.provider_id == providerId && r.date == date &&
    (match excludeId with
     | some i => !(r.id == i)
     | none => true) &&
    overlapQueryMatches startTime endTime r.start_time r.end_time

/-- `checkForConflicts` from the availability repository: runs the query
and reports whether any document matched (`conflicts.length > 0`). -/
def checkForConflicts (store : List Availability) (providerId : Nat) (date : Int)
    (startTime endTime : Nat) (excludeId : Option Nat) : Bool :=
  let conflicts := store.filter (conflictQueryFilter providerId date startTime endTime excludeId)
  decide (0 < conflicts.length)

/-! ## Repository operations (providerAvailabilityRepository.js) -/

/-- `create`: conflict-check the requested window, then construct and
`save` the document (which runs the pre-save middleware), appending it to
the collection.  Errors pass through the repository `catch` policy. -/
def repoCreate (hostOffset : Int) (store : List Availability) (data : Availability) :
    Except JsErr Availability × List Availability :=
  if checkForConflicts store data.provider_id data.date data.start_time data.end_time none then
    (.error (catchConflict "Failed to create availability: "
        (throwNew (requireErrors "ConflictError") "ConflictError"
          "Time slot conflicts with existing availability")), store)
  else
    match data.save hostOffset with
    | .error e => (.error (catchConflict "Failed to create availability: " e), store)
    | .ok r => (.ok r, store ++ [r])

/-- The update patch accepted by `updateById` (only the fields the
scheduling logic touches). -/
structure UpdatePatch where
  date : Option Int := none
  start_time : Option Nat := none
  end_time : Option Nat := none
  timezone : Option String := none
  status : Option Status := none
deriving Repr

/-- `findByIdAndUpdate(id, updateData)`: sets exactly the provided fields
on the stored document.  It is a query-level atomic update, so the
document `pre('save')` middleware does NOT run (Mongoose documents this:
save hooks fire only on `save()`), hence `utc_start_time`/`utc_end_time`
are left untouched. -/
def applyUpdate (r : Availability) (p : UpdatePatch) : Availability :=
  { r with
    date := p.date.getD r.date,
    start_time := p.start_time.getD r.start_time,
    end_time := p.end_time.getD r.end_time,
    timezone := p.timezone.getD r.timezone,
    status := p.status.getD r.status }

/-- `updateById`: when a time-bearing field is being updated, re-run the
conflict check (excluding the record itself) against the merged values;
then apply the patch through `findByIdAndUpdate`.  Errors pass through
the `NotFoundError`/`ConflictError` `catch` policy. -/
def updateById (store : List Availability) (id : Nat) (p : UpdatePatch) :
    Except JsErr Availability × List Availability :=
  match store.find? (fun r => r.id == id) with
  | none =>
    (.error (catchNotFoundConflict "Failed to update availability: "
        (.app .notFound "Availability not found")), store)
  | some existing =>
    if p.start_time.isSome || p.end_time.isSome || p.date.isSome then
      let startTime := p.start_time.getD existing.start_time
      let endTime := p.end_time.getD existing.end_time
      let date := p.date.getD existing.date
      if checkForConflicts store existing.provider_id date startTime endTime (some id) then
        (.error (catchNotFoundConflict "Failed to update availability: "
            (throwNew (requireErrors "ConflictError") "ConflictError"
              "Time slot conflicts with existing availability")), store)
      else
        let r := applyUpdate existing p
        (.ok r, store.map (fun x => if x.id == id then r else x))
    else
      let r := applyUpdate existing p
      (.ok r, store.map (fun x => if x.id == id then r else x))

/-- `deleteById`: refuse to delete a slot that still has appointments;
otherwise delete the single document, or — with `deleteRecurring` on a
recurring record — `deleteMany` every record of the provider with the
same recurrence pattern and time window. -/
def deleteById (store : List Availability) (id : Nat) (deleteRecurring : Bool) :
    Except JsErr Bool × List Availability :=
  match store.find? (fun r => r.id == id) with
  | none =>
    (.error (catchNotFoundConflict "Failed to delete availability: "
        (.app .notFound "Availability not found")), store)
  | some availability =>
    if 0 < availability.current_appointments then
      (.error (catchNotFoundConflict "Failed to delete availability: "
          (throwNew (requireErrors "ConflictError") "ConflictError"
            "Cannot delete availability with existing appointments")), store)
    else if deleteRecurring && availability.is_recurring then
      let remaining := store.filter (fun x =>
        !(x.provider_id == availability.provider_id &&
          x.is_recurring &&
          x.recurrence_pattern == availability.recurrence_pattern &&
          x.start_time == availability.start_time &&
          x.end_time == availability.end_time))
      (.ok (decide (remaining.length < store.length)), remaining)
    else
      (.ok true, store.filter (fun x => !(x.id == id)))

/-! ## Scheduling service (services/providerAvailabilityService.js) -/

/-- `bookSlot`: fetch the record, require `canBeBooked()`, increment the
counter, `save`.  The conflict throws go through the service `catch`
policy; the collection is only written by the final `save`. -/
def bookSlot (hostOffset now : Int) (store : List Availability) (id : Nat) :
    Except JsErr Availability × List Availability :=
  match store.find? (fun r => r.id == id) with
  | none => (.error (.app .notFound "Availability not found"), store)
  | some availability =>
    if !(availability.canBeBooked now) then
      (.error (catchNotFoundConflict "Failed to book slot: "
          (throwNew (requireErrors "ConflictError") "ConflictError"
            "Slot is not available for booking")), store)
    else
      let (r1, booked) := availability.incrementAppointments
      if !booked then
        (.error (catchNotFoundConflict "Failed to book slot: "
            (throwNew (requireErrors "ConflictError") "ConflictError"
              "Slot is already fully booked")), store)
      else
        match r1.save hostOffset with
        | .error e => (.error (catchNotFoundConflict "Failed to book slot: " e), store)
        | .ok r2 => (.ok r2, store.map (fun x => if x.id == id then r2 else x))

/-- `cancelSlot`: fetch the record, require a positive appointment
counter, decrement, `save`. -/
def cancelSlot (hostOffset : Int) (store : List Availability) (id : Nat) :
    Except JsErr Availability × List Availability :=
  match store.find? (fun r => r.id == id) with
  | none => (.error (.app .notFound "Availability not found"), store)
  | some availability =>
    if availability.current_appointments ≤ 0 then
      (.error (catchNotFoundConflict "Failed to cancel appointment: "
          (throwNew (requireErrors "ConflictError") "ConflictError"
            "No appointments to cancel")), store)
    else
      let (r1, cancelled) := availability.decrementAppointments
      if !cancelled then
        (.error (catchNotFoundConflict "Failed to cancel appointment: "
            (throwNew (requireErrors "ConflictError") "ConflictError"
              "Failed to cancel appointment")), store)
      else
        match r1.save hostOffset with
        | .error e => (.error (catchNotFoundConflict "Failed to cancel appointment: " e), store)
        | .ok r2 => (.ok r2, store.map (fun x => if x.id == id then r2 else x))

/-- `deleteAvailability` (service): delegates to the repository, converts
a `false` result to `NotFoundError`, and re-applies the
`NotFoundError`/`ConflictError` `catch` policy. -/
def deleteAvailability (store : List Availability) (id : Nat) (deleteRecurring : Bool) :
    Except JsErr Bool × List Availability :=
  match deleteById store id deleteRecurring with
  | (.error e, st) =>
    (.error (catchNotFoundConflict "Failed to delete availability: " e), st)
  | (.ok false, st) =>
    (.error (catchNotFoundConflict "Failed to delete availability: "
        (.app .notFound "Availability not found")), st)
  | (.ok true, st) => (.ok true, st)

end HealthFirst

namespace HealthFirst

/-! ## Calendar arithmetic (JS `Date` day/month stepping) -/

/-- Day number of the civil date `y-m-d` relative to 1970-01-01 (the value
a JS `Date` at UTC midnight of that date holds, in days).  Standard
Gregorian conversion; like the JS `Date` constructor it normalizes
out-of-range day and month values by rolling them over. -/
def daysFromCivil (y m d : Int) : Int :=
  let y := if m ≤ 2 then y - 1 else y
  let era := y / 400
  let yoe := y - era * 400
  let mp := (m + 9) % 12
  let doy := (153 * mp + 2) / 5 + d - 1
  let doe := yoe * 365 + yoe / 4 - yoe / 100 + doy
  era * 146097 + doe - 719468

/-- Inverse of `daysFromCivil`: the civil date `(y, m, d)` of a day
number. -/
def civilFromDays (z : Int) : Int × Int × Int :=
  let z := z + 719468
  let era := z / 146097
  let doe := z - era * 146097
  let yoe := (doe - doe / 1460 + doe / 36524 - doe / 146096) / 365
  let y := yoe + era * 400
  let doy := doe - (365 * yoe + yoe / 4 - yoe / 100)
  let mp := (5 * doy + 2) / 153
  let d := doy - (153 * mp + 2) / 5 + 1
  let m := if mp < 10 then mp + 3 else mp - 9
  (if m ≤ 2 then y + 1 else y, m, d)

/-- The cursor advance of `generateRecurringSlots`:
`daily` → `setDate(getDate() + 1)`, `weekly` → `setDate(getDate() + 7)`,
`monthly` → `setMonth(getMonth() + 1)` (same day of month, with JS
overflow normalization). -/
def advanceCursor : RecPattern → Int → Int
  | .daily, cur => cur + 1
  | .weekly, cur => cur + 7
  | .monthly, cur =>
    match civilFromDays cur with
    | (y, m, d) => daysFromCivil y (m + 1) d

/-! ## Recurrence expander (providerAvailabilityRepository.js,
`generateRecurringSlots`) -/

/-- One visited date of the recurrence loop: generate the sub-slots of the
template's window, keep those that do not conflict with the persisted
collection, and materialize each as a record on the cursor date. -/
def occurrencesOn (store : List Availability) (tmpl : Availability) (cur : Int) :
    List Availability :=
  ((generateTimeSlotsM tmpl.start_time tmpl.end_time
      tmpl.slot_duration tmpl.break_duration).filter
    (fun slot => !(checkForConflicts store tmpl.provider_id cur slot.1 slot.2 none))).map
    (fun slot => { tmpl with date := cur, start_time := slot.1, end_time := slot.2 })

/-- The `while (currentDate <= endDate)` loop of `generateRecurringSlots`.
`fuel` bounds the iteration count; every pattern advances the cursor by
at least one day, so `(endDate - startDate) + 1` iterations suffice. -/
def generateRecurringSlotsGo (store : List Availability) (tmpl : Availability) :
    Nat → Int → List Availability
  | 0, _ => []
  | fuel + 1, cur =>
    if cur ≤ tmpl.recurrence_end_date then
      occurrencesOn store tmpl cur ++
        generateRecurringSlotsGo store tmpl fuel (advanceCursor tmpl.recurrence_pattern cur)
    else []

/-- The number of dates the recurrence cursor visits (`cur ≤ endDate`
iterations), with the same fuel discipline as the loop. -/
def countVisits (pattern : RecPattern) (endDate : Int) : Nat → Int → Nat
  | 0, _ => 0
  | fuel + 1, cur =>
    if cur ≤ endDate then countVisits pattern endDate fuel (advanceCursor pattern cur) + 1
    else 0

/-- `generateRecurringSlots`: walk the cursor from the template's `date`
to `recurrence_end_date`, collecting the per-date non-conflicting
occurrences; the collected batch is then `insertMany`-persisted. -/
def generateRecurringSlots (store : List Availability) (tmpl : Availability) :
    List Availability :=
  generateRecurringSlotsGo store tmpl
    ((tmpl.recurrence_end_date - tmpl.date).toNat + 1) tmpl.date

end HealthFirst

namespace HealthFirst

/-! ## Theorems -/

/-- For well-formed ranges, the three-shape `$or` is exactly range
overlap. -/
theorem overlapQueryMatches_iff {s1 e1 s2 e2 : Nat} (h1 : s1 < e1) (h2 : s2 < e2) :
    overlapQueryMatches s1 e1 s2 e2 = true ↔ (s1 < e2 ∧ s2 < e1) := by
  simp only [overlapQueryMatches, Bool.or_eq_true, Bool.and_eq_true,
    decide_eq_true_eq]
  omega

/-- C1: For every provider/date and all well-formed half-open
minute-granularity ranges `[s1,e1)`, `[s2,e2)`, `checkForConflicts`
reports a conflict between the requested range and a stored record iff
`s1 < e2 ∧ s2 < e1`; the three-shape enumeration equals the single
inequality, is symmetric in the two ranges, and back-to-back ranges
(`e1 = s2`) never conflict. -/
theorem checkForConflicts_overlap_iff (s1 e1 s2 e2 : Nat)
    (h1 : s1 < e1) (h2 : s2 < e2) :
    (overlapQueryMatches s1 e1 s2 e2 = true ↔ (s1 < e2 ∧ s2 < e1)) ∧
    overlapQueryMatches s1 e1 s2 e2 = overlapQueryMatches s2 e2 s1 e1 ∧
    (e1 = s2 → overlapQueryMatches s1 e1 s2 e2 = false) ∧
    (∀ (store : List Availability) (pid : Nat) (d : Int) (ex : Option Nat),
      (∀ r ∈ store, r.start_time < r.end_time) →
      (checkForConflicts store pid d s1 e1 ex = true ↔
        ∃ r ∈ store, r.provider_id = pid ∧ r.date = d ∧
          (∀ i, ex = some i → r.id ≠ i) ∧
          s1 < r.end_time ∧ r.start_time < e1)) := by
  refine ⟨overlapQueryMatches_iff h1 h2, ?_, ?_, ?_⟩
  · have hA := overlapQueryMatches_iff h1 h2
    have hB := overlapQueryMatches_iff h2 h1
    cases hvA : overlapQueryMatches s1 e1 s2 e2 <;>
      cases hvB : overlapQueryMatches s2 e2 s1 e1
    · rfl
    · have hx := hB.mp hvB
      exact absurd (hA.mpr ⟨hx.2, hx.1⟩) (by simp [hvA])
    · have hx := hA.mp hvA
      exact absurd (hB.mpr ⟨hx.2, hx.1⟩) (by simp [hvB])
    · rfl
  · intro he
    cases hvA : overlapQueryMatches s1 e1 s2 e2
    · rfl
    · exfalso
      have hx := (overlapQueryMatches_iff h1 h2).mp hvA
      omega
  · intro store pid d ex hwf
    simp only [checkForConflicts, decide_eq_true_eq, List.length_pos_iff_exists_mem,
      List.mem_filter]
    constructor
    · rintro ⟨r, ⟨hr, hfil⟩⟩
      simp only [conflictQueryFilter, Bool.and_eq_true, beq_iff_eq] at hfil
      obtain ⟨⟨⟨hp, hd⟩, hex⟩, hov⟩ := hfil
      have := (overlapQueryMatches_iff h1 (hwf r hr)).mp hov
      refine ⟨r, hr, hp, hd, ?_, this.1, this.2⟩
      intro i hi
      subst hi
      simp only [Bool.not_eq_true'] at hex
      intro hc
      simp [hc] at hex
    · rintro ⟨r, hr, hp, hd, hex, ho1, ho2⟩
      refine ⟨r, hr, ?_⟩
      simp only [conflictQueryFilter, Bool.and_eq_true, beq_iff_eq]
      refine ⟨⟨⟨hp, hd⟩, ?_⟩, (overlapQueryMatches_iff h1 (hwf r hr)).mpr ⟨ho1, ho2⟩⟩
      cases ex with
      | none => rfl
      | some i =>
        simp only [Bool.not_eq_true']
        have := hex i rfl
        simp [this]

/-- Witness for C1 at concrete inputs: `[09:00,10:00)` and `[10:00,11:00)`
are well-formed and back-to-back, and are not reported as conflicting. -/
theorem checkForConflicts_overlap_iff_witness :
    540 < 600 ∧ 600 < 660 ∧ overlapQueryMatches 540 600 600 660 = false :=
  ⟨by decide, by decide,
    (checkForConflicts_overlap_iff 540 600 600 660 (by decide) (by decide)).2.2.1 rfl⟩

end HealthFirst


namespace HealthFirst

/-- Shared concrete well-formed record used to instantiate claim
witnesses: 1 of 2 appointments, status `available`. -/
def halfFullSlot : Availability :=
  { id := 1, provider_id := 2, date := 20072, start_time := 540,
    end_time := 1020, timezone := "UTC", utc_start_time := 0,
    utc_end_time := 0, max_appointments_per_slot := 2,
    current_appointments := 1 }

/-- C3: Both booking-flow mutators preserve the capacity invariant
`current_appointments ≤ max_appointments_per_slot` and the status
invariant `status = booked ⇔ current_appointments ≥ max`, the status
being re-derived from the counter by the operation itself. -/
theorem booking_ops_preserve_invariants (r : Availability)
    (hle : r.current_appointments ≤ r.max_appointments_per_slot)
    (hst : r.status = .booked ↔ r.max_appointments_per_slot ≤ r.current_appointments) :
    (r.incrementAppointments.1.current_appointments ≤
        r.incrementAppointments.1.max_appointments_per_slot ∧
      (r.incrementAppointments.1.status = .booked ↔
        r.incrementAppointments.1.max_appointments_per_slot ≤
          r.incrementAppointments.1.current_appointments)) ∧
    (r.decrementAppointments.1.current_appointments ≤
        r.decrementAppointments.1.max_appointments_per_slot ∧
      (r.decrementAppointments.1.status = .booked ↔
        r.decrementAppointments.1.max_appointments_per_slot ≤
          r.decrementAppointments.1.current_appointments)) := by
  obtain ⟨id, pid, date, st, et, tz, u1, u2, ir, rp, red, sd, bd, status, maxApp, cur⟩ := r
  simp only [Availability.incrementAppointments, Availability.decrementAppointments] at *
  constructor
  · split
    · rename_i hlt
      simp only at hlt ⊢
      refine ⟨by omega, ?_⟩
      split
      · rename_i hge
        simp only [true_iff]
        omega
      · rename_i hge
        rw [hst]
        omega
    · exact ⟨hle, hst⟩
  · split
    · rename_i hpos
      simp only at hpos ⊢
      refine ⟨by omega, ?_⟩
      split
      · rename_i hcond
        simp only [Bool.and_eq_true, beq_iff_eq, decide_eq_true_eq] at hcond
        constructor
        · intro h
          exact absurd h (by simp)
        · intro h
          exact absurd h (by omega)
      · rename_i hcond
        simp only [Bool.and_eq_true, beq_iff_eq, decide_eq_true_eq, not_and,
          not_lt] at hcond
        constructor
        · intro h
          exact hcond h
        · intro h
          exact hst.mpr (by omega)
    · exact ⟨hle, hst⟩

/-- Witness for C3 at the concrete record `halfFullSlot`. -/
theorem booking_ops_preserve_invariants_witness :
    (halfFullSlot.current_appointments ≤ halfFullSlot.max_appointments_per_slot) ∧
    (halfFullSlot.incrementAppointments.1.current_appointments ≤
      halfFullSlot.incrementAppointments.1.max_appointments_per_slot) :=
  ⟨by decide,
    (booking_ops_preserve_invariants halfFullSlot (by decide) (by decide)).1.1⟩

end HealthFirst

namespace HealthFirst

/-- A record at capacity (`current_appointments = max = 1`, status
`booked`). -/
def fullSlot : Availability :=
  { id := 1, provider_id := 2, date := 20072, start_time := 540,
    end_time := 1020, timezone := "America/New_York",
    utc_start_time := 28904520, utc_end_time := 28905000,
    status := .booked, max_appointments_per_slot := 1,
    current_appointments := 1 }

/-- A record with no appointments (`current_appointments = 0`). -/
def emptySlot : Availability :=
  { id := 1, provider_id := 2, date := 20072, start_time := 540,
    end_time := 1020, timezone := "America/New_York",
    utc_start_time := 28904520, utc_end_time := 28905000,
    max_appointments_per_slot := 1, current_appointments := 0 }

/-- A full record whose status is still `available` (capacity alone must
block the booking). -/
def fullAvailableSlot : Availability :=
  { fullSlot with
    status := .available
    max_appointments_per_slot := 2
    current_appointments := 2 }

/-- C2 (evaluation of the conflict paths): booking a record at
`current_appointments = max_appointments_per_slot` fails — but with the
`TypeError` produced by `new ConflictError(...)`/`instanceof
ConflictError` on the undefined binding, not with a `ConflictError` —
and cancelling at `current_appointments = 0` fails the same way; in both
failure cases the stored collection is unchanged. -/
theorem bookSlot_full_cancelSlot_zero_eval :
    bookSlot 0 0 [fullSlot] 1 =
      (.error (.typeErrorInstanceofUndefined "ConflictError"), [fullSlot]) ∧
    bookSlot 0 0 [fullAvailableSlot] 1 =
      (.error (.typeErrorInstanceofUndefined "ConflictError"), [fullAvailableSlot]) ∧
    cancelSlot 0 [emptySlot] 1 =
      (.error (.typeErrorInstanceofUndefined "ConflictError"), [emptySlot]) := by
  refine ⟨?_, ?_, ?_⟩ <;> rfl

/-- A persisted window 09:00–17:00 on 2024-12-15 for provider 2. -/
def storedWindow : Availability :=
  { id := 3, provider_id := 2, date := 20072, start_time := 540,
    end_time := 1020, timezone := "America/New_York",
    utc_start_time := 28904520, utc_end_time := 28905000 }

/-- A creation request 10:00–18:00 overlapping `storedWindow`. -/
def overlapRequest : Availability :=
  { id := 4, provider_id := 2, date := 20072, start_time := 600,
    end_time := 1080, timezone := "America/New_York",
    utc_start_time := 0, utc_end_time := 0 }

/-- A record with active appointments, deletion of which must be
refused. -/
def busySlot : Availability :=
  { id := 1, provider_id := 2, date := 20072, start_time := 540,
    end_time := 1020, timezone := "America/New_York",
    utc_start_time := 28904520, utc_end_time := 28905000,
    max_appointments_per_slot := 3, current_appointments := 2 }

/-- C4: utils/errors.js defines and exports exactly ValidationError,
DuplicateError, DatabaseError, AuthenticationError, AuthorizationError,
NotFoundError and RateLimitError; destructuring `ConflictError` from it
yields `undefined`; and every path that attempts `new ConflictError(...)`
or `error instanceof ConflictError` — booking a full slot, cancelling at
zero, creating an overlapping window, deleting with appointments —
surfaces a `TypeError` instead of a typed 409 conflict error. -/
theorem errors_module_has_no_conflictError :
    errorsModuleExports.map Prod.fst =
      ["ValidationError", "DuplicateError", "DatabaseError",
       "AuthenticationError", "AuthorizationError", "NotFoundError",
       "RateLimitError"] ∧
    requireErrors "ConflictError" = none ∧
    (bookSlot 0 0 [{ fullSlot with id := 9 }] 9).1 =
      .error (.typeErrorInstanceofUndefined "ConflictError") ∧
    (cancelSlot 0 [{ emptySlot with id := 9 }] 9).1 =
      .error (.typeErrorInstanceofUndefined "ConflictError") ∧
    (repoCreate 0 [storedWindow] overlapRequest).1 =
      .error (.typeErrorInstanceofUndefined "ConflictError") ∧
    (deleteAvailability [{ busySlot with id := 9 }] 9 false).1 =
      .error (.typeErrorInstanceofUndefined "ConflictError") := by
  refine ⟨rfl, rfl, rfl, rfl, rfl, rfl⟩

/-- Head of a weekly recurring series, no appointments. -/
def recurringHead : Availability :=
  { id := 1, provider_id := 2, date := 20072, start_time := 540,
    end_time := 1020, timezone := "America/New_York",
    utc_start_time := 28904520, utc_end_time := 28905000,
    is_recurring := true, recurrence_pattern := .weekly,
    recurrence_end_date := 20103 }

/-- Sibling of `recurringHead` one week later, WITH active
appointments. -/
def recurringSibling : Availability :=
  { recurringHead with
    id := 2
    date := 20079
    max_appointments_per_slot := 3
    current_appointments := 3 }

/-- C10 (evaluation): deleting a record with `current_appointments > 0`
is rejected — with the `TypeError` from the undefined `ConflictError`
binding, not a `ConflictError` — and removes nothing; moreover the
`deleteRecurring` branch deletes sibling records that still carry active
appointments, checking the counter of the targeted record only. -/
theorem deleteAvailability_appointments_eval :
    deleteAvailability [busySlot] 1 false =
      (.error (.typeErrorInstanceofUndefined "ConflictError"), [busySlot]) ∧
    deleteAvailability [recurringHead, recurringSibling] 1 true =
      (.ok true, []) := by
  exact ⟨rfl, rfl⟩

/-- A stored record whose UTC fields are consistent with its local
fields (computed by `localToUTC` on a UTC host). -/
def consistentSlot : Availability :=
  { id := 1, provider_id := 2, date := 20072, start_time := 540,
    end_time := 1020, timezone := "America/New_York",
    utc_start_time := localToUTC 0 540 20072 "America/New_York",
    utc_end_time := localToUTC 0 1020 20072 "America/New_York" }

/-- C9 (evaluation): `updateById` moves `start_time` 09:00 → 10:00 but —
because `findByIdAndUpdate` does not run the document `pre('save')`
middleware — persists the OLD `utc_start_time`, which no longer
corresponds to the stored local fields; a `save()`-based path on the
same data does recompute it. -/
theorem updateById_leaves_utc_stale :
    updateById [consistentSlot] 1 { start_time := some 600 } =
      (.ok { consistentSlot with start_time := 600 },
       [{ consistentSlot with start_time := 600 }]) ∧
    ({ consistentSlot with start_time := 600 } : Availability).utc_start_time ≠
      localToUTC 0 600 20072 "America/New_York" ∧
    (({ consistentSlot with start_time := 600 } : Availability).save 0).map
        (fun r => r.utc_start_time) =
      .ok (localToUTC 0 600 20072 "America/New_York") := by
  refine ⟨rfl, by decide, rfl⟩

end HealthFirst

namespace HealthFirst

/-- Booking against a one-record store: the record is incremented, its
status re-derived, `save`d and written back. -/
lemma bookSlot_singleton (σ now : Int) (s : Availability)
    (hcb : s.canBeBooked now = true)
    (hlt : s.current_appointments < s.max_appointments_per_slot)
    (hwf2 : s.start_time < s.end_time) :
    ∃ r1, bookSlot σ now [s] s.id = (.ok r1, [r1]) ∧
      r1.id = s.id ∧
      r1.current_appointments = s.current_appointments + 1 ∧
      r1.start_time = s.start_time ∧ r1.end_time = s.end_time ∧
      r1.max_appointments_per_slot = s.max_appointments_per_slot ∧
      r1.status = (if s.max_appointments_per_slot ≤ s.current_appointments + 1
                   then Status.booked else s.status) := by
  have hfind : List.find? (fun x => x.id == s.id) [s] = some s := by
    simp [List.find?]
  have hns : ¬(s.end_time ≤ s.start_time) := by omega
  simp only [bookSlot, hfind, hcb, Bool.not_true, Bool.false_eq_true, if_false,
    Availability.incrementAppointments, hlt, if_true,
    Availability.save, hns, List.map, beq_self_eq_true, if_true]
  exact ⟨_, rfl, rfl, rfl, rfl, rfl, rfl, rfl⟩

/-- Cancelling against a one-record store holding exactly one
appointment: the counter returns to 0 and a `booked` status flips back
to `available`. -/
lemma cancelSlot_singleton (σ : Int) (s : Availability)
    (hone : s.current_appointments = 1)
    (hmax2 : 0 < s.max_appointments_per_slot)
    (hwf2 : s.start_time < s.end_time) :
    ∃ r2, cancelSlot σ [s] s.id = (.ok r2, [r2]) ∧
      r2.current_appointments = 0 ∧
      r2.status = (if s.status == Status.booked then Status.available
                   else s.status) := by
  have hfind : List.find? (fun x => x.id == s.id) [s] = some s := by
    simp [List.find?]
  have hns : ¬(s.end_time ≤ s.start_time) := by omega
  have hguard : ¬(s.current_appointments ≤ 0) := by omega
  have hpos : 0 < s.current_appointments := by omega
  have hdm : decide (s.current_appointments - 1 < s.max_appointments_per_slot) = true :=
    decide_eq_true (by omega)
  simp only [cancelSlot, hfind, hguard, if_false,
    Availability.decrementAppointments, hpos, if_true, hdm, Bool.and_true,
    Availability.save, hns, List.map, beq_self_eq_true]
  exact ⟨_, rfl, show s.current_appointments - 1 = 0 by omega, rfl⟩

/-- C5: On a fresh availability record (`current_appointments = 0`,
status `available`, date not in the past), `bookSlot` followed by
`cancelSlot` returns `current_appointments` to 0 and the status to
`available`, for every `max_appointments_per_slot ≥ 1`. -/
theorem bookSlot_cancelSlot_roundtrip (hostOffset now : Int) (r : Availability)
    (hcur : r.current_appointments = 0) (hst : r.status = .available)
    (hdate : now ≤ r.date * 1440) (hmax : 1 ≤ r.max_appointments_per_slot)
    (hwf : r.start_time < r.end_time) :
    ∃ r1 r2,
      bookSlot hostOffset now [r] r.id = (.ok r1, [r1]) ∧
      cancelSlot hostOffset [r1] r.id = (.ok r2, [r2]) ∧
      r2.current_appointments = 0 ∧ r2.status = .available := by
  have hcb : r.canBeBooked now = true := by
    simp only [Availability.canBeBooked, Availability.isAvailable, hst,
      beq_self_eq_true, Bool.true_and, Bool.and_eq_true, decide_eq_true_eq]
    exact ⟨by omega, hdate⟩
  obtain ⟨r1, hb, hid, hc1, hs1, he1, hm1, hst1⟩ :=
    bookSlot_singleton hostOffset now r hcb (by omega) hwf
  obtain ⟨r2, hc2, h02, hstat2⟩ :=
    cancelSlot_singleton hostOffset r1 (by omega) (by omega) (by rw [hs1, he1]; exact hwf)
  rw [hid] at hc2
  refine ⟨r1, r2, hb, hc2, h02, ?_⟩
  rw [hstat2, hst1]
  by_cases hm : r.max_appointments_per_slot ≤ r.current_appointments + 1
  · simp [hm]
  · simp [hm, hst]

/-- A fresh bookable record used to instantiate the C5 witness. -/
def freshSlot : Availability :=
  { id := 5, provider_id := 2, date := 20072, start_time := 540,
    end_time := 1020, timezone := "UTC", utc_start_time := 0,
    utc_end_time := 0, max_appointments_per_slot := 1,
    current_appointments := 0 }

/-- Witness for C5 at the concrete record `freshSlot`. -/
theorem bookSlot_cancelSlot_roundtrip_witness :
    freshSlot.current_appointments = 0 ∧ freshSlot.status = .available ∧
    (0 : Int) ≤ freshSlot.date * 1440 ∧
    1 ≤ freshSlot.max_appointments_per_slot ∧
    freshSlot.start_time < freshSlot.end_time ∧
    (∃ r1 r2, bookSlot 0 0 [freshSlot] freshSlot.id = (.ok r1, [r1]) ∧
      cancelSlot 0 [r1] freshSlot.id = (.ok r2, [r2]) ∧
      r2.current_appointments = 0 ∧ r2.status = .available) :=
  ⟨rfl, rfl, by decide, by decide, by decide,
    bookSlot_cancelSlot_roundtrip 0 0 freshSlot rfl rfl (by decide) (by decide)
      (by decide)⟩

end HealthFirst

namespace HealthFirst

/-- Counterexample to C6 as stated: on a host whose local clock runs at
UTC−05:00 (offset −300, e.g. a server in America/New_York), converting
local 23:30 (minute 1410) of day 0 in zone UTC to a UTC instant and back
returns the NEXT day with the same time — the date component is rendered
through `toISOString` without compensating the host offset that
`toTimeString` applies, so wall-clock times near midnight shift the
returned date. -/
theorem utc_roundtrip_cex :
    utcToLocal (-300) (localToUTC (-300) 1410 0 "UTC") "UTC" ≠
      ((0 : Int), (1410 : Int)) := by
  decide

/-- C6 as amended: the round-trip
`utcToLocal (localToUTC t d tz) tz = (d, t)` holds for every supported
timezone and valid time-of-day PROVIDED the host process runs with UTC
local time (host offset 0); for an arbitrary host offset the TIME
component still round-trips, but the date can shift by one day. -/
theorem utc_roundtrip_host_utc (tz : String) (d t : Int)
    (htz : isValidTimezone tz = true) (ht0 : 0 ≤ t) (ht1 : t < 1440) :
    utcToLocal 0 (localToUTC 0 t d tz) tz = (d, t) ∧
    (∀ hostOffset : Int,
      (utcToLocal hostOffset (localToUTC hostOffset t d tz) tz).2 = t) := by
  constructor
  · simp only [utcToLocal, localToUTC, getTimezoneOffset, jsParseLocal,
      jsToLocaleStringTZ, Prod.mk.injEq]
    constructor <;> omega
  · intro hostOffset
    simp only [utcToLocal, localToUTC, getTimezoneOffset, jsParseLocal,
      jsToLocaleStringTZ]
    omega

/-- Witness for the amended C6 on 2024-12-15 09:00 America/New_York. -/
theorem utc_roundtrip_host_utc_witness :
    isValidTimezone "America/New_York" = true ∧ (0 : Int) ≤ 540 ∧ (540 : Int) < 1440 ∧
    utcToLocal 0 (localToUTC 0 540 20072 "America/New_York") "America/New_York" =
      ((20072 : Int), (540 : Int)) :=
  ⟨by decide, by decide, by decide,
    (utc_roundtrip_host_utc "America/New_York" 20072 540 (by decide) (by decide)
      (by decide)).1⟩

end HealthFirst

namespace HealthFirst

/-- Closed form of the `generateTimeSlots` loop: from cursor `cur` it
emits `(endM - cur + brk) / (slot + brk)` slots at stride `slot + brk`. -/
lemma genSlotsGo_eq (endM slot brk : Nat) (hslot : 0 < slot) :
    ∀ fuel cur, endM + 1 - cur ≤ fuel →
      genSlotsGo endM slot brk fuel cur =
        (List.range ((endM - cur + brk) / (slot + brk))).map
          (fun k => (cur + k * (slot + brk), cur + k * (slot + brk) + slot)) := by
  intro fuel
  induction fuel with
  | zero =>
    intro cur h
    have hz : (endM - cur + brk) / (slot + brk) = 0 := Nat.div_eq_of_lt (by omega)
    simp [genSlotsGo, hz]
  | succ fuel ih =>
    intro cur h
    simp only [genSlotsGo]
    split
    · rename_i hle
      rw [ih (cur + slot + brk) (by omega)]
      have hn : (endM - cur + brk) / (slot + brk) =
          (endM - (cur + slot + brk) + brk) / (slot + brk) + 1 := by
        by_cases hc2 : cur + slot + brk ≤ endM
        · rw [Nat.div_eq_sub_div (by omega) (by omega)]
          congr 2
          omega
        · rw [show endM - (cur + slot + brk) + brk = brk from by omega,
            Nat.div_eq_of_lt (show brk < slot + brk from by omega),
            Nat.div_eq_sub_div (show 0 < slot + brk from by omega)
              (show slot + brk ≤ endM - cur + brk from by omega),
            Nat.div_eq_of_lt
              (show endM - cur + brk - (slot + brk) < slot + brk from by omega)]
      rw [hn, List.range_succ_eq_map, List.map_cons, List.map_map]
      congr 1
      · simp
      · refine List.map_congr_left ?_
        intro k _
        simp only [Function.comp_apply, Nat.succ_eq_add_one, Prod.mk.injEq]
        constructor <;> ring
    · rename_i hle
      have hz : (endM - cur + brk) / (slot + brk) = 0 := Nat.div_eq_of_lt (by omega)
      simp [hz]

end HealthFirst

namespace HealthFirst

/-- C7: for `start < end` and positive slot duration, `generateTimeSlots`
emits the arithmetic progression of stride `slotDuration + breakDuration`
starting at `start`: the count is
`(end - start + breakDuration) / (slotDuration + breakDuration)` — i.e.
`floor((end-start)/(slot+break))`, adjusted up by one when the final
partial step still fits a whole slot without its trailing break — the
first slot starts at `start`, every slot is exactly `slotDuration`
minutes and ends no later than `end`, and consecutive slots are separated
by exactly `breakDuration` minutes. -/
theorem generateTimeSlots_spec (startM endM slotDuration breakDuration : Nat)
    (h1 : startM < endM) (hslot : 0 < slotDuration) :
    generateTimeSlotsM startM endM slotDuration breakDuration =
      (List.range ((endM - startM + breakDuration) / (slotDuration + breakDuration))).map
        (fun k => (startM + k * (slotDuration + breakDuration),
                   startM + k * (slotDuration + breakDuration) + slotDuration)) ∧
    (generateTimeSlotsM startM endM slotDuration breakDuration).length =
      (endM - startM + breakDuration) / (slotDuration + breakDuration) ∧
    (∀ p ∈ generateTimeSlotsM startM endM slotDuration breakDuration,
      p.2 = p.1 + slotDuration ∧ p.2 ≤ endM) ∧
    (∀ p ∈ (generateTimeSlotsM startM endM slotDuration breakDuration).head?,
      p.1 = startM) ∧
    (∀ i (hi : i + 1 < (generateTimeSlotsM startM endM slotDuration breakDuration).length),
      ((generateTimeSlotsM startM endM slotDuration breakDuration).get ⟨i + 1, hi⟩).1 =
        ((generateTimeSlotsM startM endM slotDuration breakDuration).get
          ⟨i, by omega⟩).2 + breakDuration) := by
  have hchar := genSlotsGo_eq endM slotDuration breakDuration hslot
    (endM + 1 - startM) startM (le_refl _)
  rw [generateTimeSlotsM]
  refine ⟨hchar, ?_, ?_, ?_, ?_⟩
  · rw [hchar]
    simp
  · rw [hchar]
    intro p hp
    simp only [List.mem_map, List.mem_range] at hp
    obtain ⟨k, hk, rfl⟩ := hp
    refine ⟨rfl, ?_⟩
    have h2 : ((endM - startM + breakDuration) / (slotDuration + breakDuration)) *
        (slotDuration + breakDuration) ≤ endM - startM + breakDuration :=
      Nat.div_mul_le_self _ _
    have h3 : (k + 1) * (slotDuration + breakDuration) ≤
        ((endM - startM + breakDuration) / (slotDuration + breakDuration)) *
          (slotDuration + breakDuration) :=
      Nat.mul_le_mul_right _ (by omega)
    have hexp : (k + 1) * (slotDuration + breakDuration) =
        k * (slotDuration + breakDuration) + slotDuration + breakDuration := by ring
    omega
  · rw [hchar]
    cases hn : (endM - startM + breakDuration) / (slotDuration + breakDuration) with
    | zero => simp
    | succ n =>
      rw [List.range_succ_eq_map]
      intro p hp
      simp only [List.map_cons, List.head?_cons, Option.mem_def, Option.some.injEq] at hp
      simp [← hp]
  · intro i hi
    simp only [hchar, List.get_eq_getElem, List.getElem_map, List.getElem_range,
      List.length_map, List.length_range] at hi ⊢
    ring

/-- Witness for C7: a 09:00-17:00 window with 30-minute slots and no
break yields 16 slots. -/
theorem generateTimeSlots_spec_witness :
    540 < 1020 ∧ 0 < 30 ∧ (generateTimeSlotsM 540 1020 30 0).length = 16 :=
  ⟨by decide, by decide,
    ((generateTimeSlots_spec 540 1020 30 0 (by decide) (by decide)).2.1).trans
      (by norm_num)⟩

end HealthFirst

namespace HealthFirst

/-- Against an empty collection no candidate conflicts, so a visited date
contributes exactly one occurrence per generated sub-slot. -/
lemma occurrencesOn_nil_length (tmpl : Availability) (cur : Int) :
    (occurrencesOn [] tmpl cur).length =
      (generateTimeSlotsM tmpl.start_time tmpl.end_time
        tmpl.slot_duration tmpl.break_duration).length := by
  unfold occurrencesOn
  rw [List.length_map, List.filter_eq_self.mpr]
  intro a _
  rfl

/-- Against an empty collection the recurrence loop creates
`visited dates × sub-slots per date` occurrences. -/
lemma generateRecurringSlotsGo_nil_length (tmpl : Availability) :
    ∀ fuel cur, (generateRecurringSlotsGo [] tmpl fuel cur).length =
      countVisits tmpl.recurrence_pattern tmpl.recurrence_end_date fuel cur *
        (generateTimeSlotsM tmpl.start_time tmpl.end_time
          tmpl.slot_duration tmpl.break_duration).length := by
  intro fuel
  induction fuel with
  | zero =>
    intro cur
    simp [generateRecurringSlotsGo, countVisits]
  | succ fuel ih =>
    intro cur
    simp only [generateRecurringSlotsGo, countVisits]
    split
    · rw [List.length_append, occurrencesOn_nil_length, ih]
      ring
    · simp

/-- A weekly recurring template from 2024-12-15 to 2025-01-15 with an
arbitrary daily window. -/
def weeklyDecemberTemplate (s e slot brk : Nat) : Availability :=
  { id := 0, provider_id := 7, date := daysFromCivil 2024 12 15,
    start_time := s, end_time := e, timezone := "America/New_York",
    utc_start_time := 0, utc_end_time := 0, is_recurring := true,
    recurrence_pattern := .weekly,
    recurrence_end_date := daysFromCivil 2025 1 15,
    slot_duration := slot, break_duration := brk }

/-- Counterexample to C8 as stated: with the template window 09:00-17:00
(30-minute slots, no break) the weekly expansion 2024-12-15 → 2025-01-15
creates 16 records per visited week — 80 occurrences, not 5: the loop
emits one record per `generateTimeSlots` sub-slot of the window, not one
per visited week. -/
theorem weekly_recurrence_cex :
    (generateRecurringSlots [] (weeklyDecemberTemplate 540 1020 30 0)).length ≠ 5 := by
  decide

/-- C8 as amended: absent conflicts, the weekly cursor from 2024-12-15 to
2025-01-15 visits exactly 5 dates (both boundary endpoints included when
they fall on the weekly cursor; 2025-01-15 does not), and the expansion
creates `5 × N` occurrences where `N` is the number of sub-slots
`generateTimeSlots` yields for the template window — exactly 5 precisely
when the window admits a single sub-slot. -/
theorem weekly_recurrence_dec15_jan15 (s e slot brk : Nat) :
    (generateRecurringSlots [] (weeklyDecemberTemplate s e slot brk)).length =
      5 * (generateTimeSlotsM s e slot brk).length ∧
    ((generateTimeSlotsM s e slot brk).length = 1 →
      (generateRecurringSlots [] (weeklyDecemberTemplate s e slot brk)).length = 5) := by
  have hmain : (generateRecurringSlots [] (weeklyDecemberTemplate s e slot brk)).length =
      5 * (generateTimeSlotsM s e slot brk).length := by
    rw [generateRecurringSlots, generateRecurringSlotsGo_nil_length]
    rfl
  exact ⟨hmain, fun h => by rw [hmain, h]⟩

/-- Witness for the amended C8: a window admitting exactly one sub-slot
(09:00-09:30, 30-minute slots) yields exactly 5 occurrences. -/
theorem weekly_recurrence_dec15_jan15_witness :
    (generateTimeSlotsM 540 570 30 0).length = 1 ∧
    (generateRecurringSlots [] (weeklyDecemberTemplate 540 570 30 0)).length = 5 :=
  ⟨by decide, (weekly_recurrence_dec15_jan15 540 570 30 0).2 (by decide)⟩

end HealthFirst
